import Mathlib

/-
Verification development for the OsduMCPDemo server (src/app.py).

The embedding models the module at the level of parsed JSON values:
a JSON body is a `JVal`, the in-memory stores `wells`, `trajectories`
and `casings` are association lists keyed by record id (Python dicts
preserve insertion order), and `handle_request` is translated branch by
branch from `OsduMCPServer.handle_request`.  A Python exception that the
source does not catch is modelled by the `Except.error` constructor of
the return type; an exception caught by a `try/except` block in the
source stays inside the corresponding branch, exactly as in the code.
Numeric JSON literals of the sample data (all exact decimals) are
modelled as rationals.
-/

namespace OsduMCP

/-- JSON values, the payloads carried by requests and responses.
`int` and `num` keep the Python distinction between `int` and `float`. -/
inductive JVal where
  | null
  | bool (b : Bool)
  | int (n : Int)
  | num (q : ℚ)
  | str (s : String)
  | arr (xs : List JVal)
  | obj (fields : List (String × JVal))

/-- Location sub-record of a well: `\x7b"lat": .., "lon": ..\x7d`. -/
structure Location where
  lat : ℚ
  lon : ℚ
deriving DecidableEq, Repr

/-- A well record, as seeded by `init_data`. -/
structure Well where
  id : String
  facility_name : String
  operator : String
  location : Location
deriving DecidableEq, Repr

/-- A trajectory station: `\x7b"md": .., "tvd": .., "incl": .., "azi": ..\x7d`. -/
structure Station where
  md : ℚ
  tvd : ℚ
  incl : ℚ
  azi : ℚ
deriving DecidableEq, Repr

/-- A trajectory record. -/
structure Trajectory where
  id : String
  well_id : String
  stations : List Station
deriving DecidableEq, Repr

/-- A casing record. -/
structure Casing where
  id : String
  well_id : String
  top_depth : ℚ
  bottom_depth : ℚ
  diameter : ℚ
deriving DecidableEq, Repr

/-- The three module-level stores `wells`, `trajectories`, `casings`:
Python dicts from id to record, modelled as ordered association lists. -/
structure Store where
  wells : List (String × Well)
  trajectories : List (String × Trajectory)
  casings : List (String × Casing)
deriving DecidableEq, Repr

/-- The parsed content of the persistent JSON file: top-level keys
`wells`, `trajectories`, `casings`, each an array of records. -/
structure FileData where
  wells : List Well
  trajectories : List Trajectory
  casings : List Casing
deriving DecidableEq, Repr

/-- The hard-coded sample data that `init_data` assigns to the three
global dicts (app.py lines 57-69). -/
def init_store : Store :=
  { wells :=
      [ ("well1", { id := "well1", facility_name := "Well A", operator := "OperatorX",
                    location := { lat := 29.75, lon := -95.48 } }),
        ("well2", { id := "well2", facility_name := "Well B", operator := "OperatorY",
                    location := { lat := 30.12, lon := -96.34 } }) ],
    trajectories :=
      [ ("traj1", { id := "traj1", well_id := "well1",
                    stations := [ { md := 0, tvd := 0, incl := 0, azi := 0 },
                                  { md := 1000, tvd := 900, incl := 10, azi := 45 } ] }),
        ("traj2", { id := "traj2", well_id := "well2",
                    stations := [ { md := 0, tvd := 0, incl := 0, azi := 0 },
                                  { md := 1500, tvd := 1300, incl := 15, azi := 90 } ] }) ],
    casings :=
      [ ("casing1", { id := "casing1", well_id := "well1",
                      top_depth := 0, bottom_depth := 500, diameter := 9.625 }),
        ("casing1b", { id := "casing1b", well_id := "well1",
                       top_depth := 500, bottom_depth := 1000, diameter := 7 }),
        ("casing2", { id := "casing2", well_id := "well2",
                      top_depth := 0, bottom_depth := 700, diameter := 7 }) ] }

/-- `save_data` (app.py lines 73-85): the JSON document written to the
persistent file is built from `list(wells.values())` and likewise for the
other two dicts. -/
def save_data (s : Store) : FileData :=
  { wells := s.wells.map Prod.snd,
    trajectories := s.trajectories.map Prod.snd,
    casings := s.casings.map Prod.snd }

/-- The snapshot branch of `load_data` (app.py lines 44-46): dicts are
rebuilt from the arrays by keying each record on its `id` field,
for instance wells become `\x7bw["id"]: w for w in data.get("wells", [])\x7d`. -/
def load_from_snapshot (d : FileData) : Store :=
  { wells := d.wells.map (fun w => (w.id, w)),
    trajectories := d.trajectories.map (fun t => (t.id, t)),
    casings := d.casings.map (fun c => (c.id, c)) }

/-! ### Python primitives used by the handler -/

/-- Python `d.get(k, default)` where `d` may be any JSON value:
on a dict it looks the key up, on anything else Python raises
AttributeError (no `.get` attribute), which no handler branch catches. -/
def pyDictGet (v : JVal) (k : String) (dflt : JVal) : Except String JVal :=
  match v with
  | .obj d =>
    match d.find? (fun p => p.1 == k) with
    | some p => .ok p.2
    | none => .ok dflt
  | _ => .error "AttributeError: object has no attribute get"

/-- Python `d[k]` on a JSON value: KeyError on a dict without the key
(whose `str` is the quoted key), TypeError on a non-dict. -/
def pyIndex (v : JVal) (k : String) : Except String JVal :=
  match v with
  | .obj d =>
    match d.find? (fun p => p.1 == k) with
    | some p => .ok p.2
    | none => .error ("'" ++ k ++ "'")
  | _ => .error "TypeError: value is not subscriptable"

/-- Python `+` on JSON values: bools behave as the ints 0 and 1,
int/float mix to float, strings and lists concatenate, every other
combination raises TypeError. -/
def pyAdd (a b : JVal) : Except String JVal :=
  match a, b with
  | .int x, .int y => .ok (.int (x + y))
  | .int x, .num y => .ok (.num (x + y))
  | .num x, .int y => .ok (.num (x + y))
  | .num x, .num y => .ok (.num (x + y))
  | .bool x, .bool y => .ok (.int ((if x then 1 else 0) + if y then 1 else 0))
  | .bool x, .int y => .ok (.int ((if x then 1 else 0) + y))
  | .int x, .bool y => .ok (.int (x + if y then 1 else 0))
  | .bool x, .num y => .ok (.num ((if x then 1 else 0) + y))
  | .num x, .bool y => .ok (.num (x + if y then 1 else 0))
  | .str x, .str y => .ok (.str (x ++ y))
  | .arr x, .arr y => .ok (.arr (x ++ y))
  | _, _ => .error "TypeError: unsupported operand types for +"

/-- Python `w == v` where `w` is known to be a string: equal exactly when
`v` is the same string (no cross-type coercion between str and numbers). -/
def pyEqStr (w : String) (v : JVal) : Bool :=
  match v with
  | .str x => w == x
  | _ => false

/-- Whether the character list `p` starts the character list `l`. -/
def leadsWithL (p l : List Char) : Bool :=
  match p, l with
  | [], _ => true
  | _ :: _, [] => false
  | a :: p, b :: l => a == b && leadsWithL p l

/-- Python `s.startswith(pre)`. -/
def pyStartsWith (s pre : String) : Bool :=
  leadsWithL pre.data s.data

/-- Splitting a character list on every occurrence of the separator
`"://"`, scanning left to right: the core of Python
`uri.split("://")`. -/
def splitSep : List Char → List (List Char)
  | ':' :: '/' :: '/' :: t => [] :: splitSep t
  | c :: rest =>
    match splitSep rest with
    | [] => [[c]]
    | l :: ls => (c :: l) :: ls
  | [] => [[]]

/-- Python `uri.split("://")`. -/
def pySplitSep (s : String) : List String :=
  (splitSep s.data).map fun l => ⟨l⟩

/-- The characters of a list before its first occurrence of `"://"`
(the whole list when the separator never occurs).  This is a
specification-side characterization used to state what element 1 of
Python `uri.split("://")` is; the handler itself uses `splitSep`. -/
def takeToSep : List Char → List Char
  | ':' :: '/' :: '/' :: _ => []
  | c :: rest => c :: takeToSep rest
  | [] => []

/-- The part of a string before its first occurrence of `"://"`. -/
def upToSep (s : String) : String := ⟨takeToSep s.data⟩

/-! ### Requests and responses -/

/-- A well-formed request body: a JSON object with a string `method`
(a missing or non-string method would fail on the debug-log
concatenation before dispatch and is outside the well-formed shape),
an optional `params` value of any JSON type, and an optional `id` of
any JSON type.  `params` defaults to the empty dict and `id` to the
int 1, as in `request.get("params", \x7b\x7d)` and `request.get("id", 1)`. -/
structure Request where
  method : String
  params : JVal := .obj []
  id : Option JVal := none

/-- The payload half of a response envelope: a `result` value or an
`error` object with numeric code and message. -/
inductive ROut where
  | ok (v : JVal)
  | err (code : Int) (message : String)

/-- A response envelope as built by `handle_request`: every branch sets
`jsonrpc` to "2.0" and `id` to `request.get("id", 1)`. -/
structure Response where
  jsonrpc : String := "2.0"
  out : ROut
  id : JVal

/-! ### JSON serialization of records (the handler returns the record
dicts themselves; the transport serializes them) -/

/-- A well as a JSON object. -/
def wellJ (w : Well) : JVal :=
  .obj [ ("id", .str w.id), ("facility_name", .str w.facility_name),
         ("operator", .str w.operator),
         ("location", .obj [("lat", .num w.location.lat), ("lon", .num w.location.lon)]) ]

/-- A station as a JSON object. -/
def stationJ (st : Station) : JVal :=
  .obj [ ("md", .num st.md), ("tvd", .num st.tvd),
         ("incl", .num st.incl), ("azi", .num st.azi) ]

/-- A trajectory as a JSON object. -/
def trajectoryJ (t : Trajectory) : JVal :=
  .obj [ ("id", .str t.id), ("well_id", .str t.well_id),
         ("stations", .arr (t.stations.map stationJ)) ]

/-- A casing as a JSON object. -/
def casingJ (c : Casing) : JVal :=
  .obj [ ("id", .str c.id), ("well_id", .str c.well_id),
         ("top_depth", .num c.top_depth), ("bottom_depth", .num c.bottom_depth),
         ("diameter", .num c.diameter) ]

/-! ### The static catalog payloads -/

/-- The `initialize` result (app.py line 96). -/
def initializeResult : JVal :=
  .obj [ ("protocolVersion", .str "2024-11-05"),
         ("capabilities", .obj
           [ ("resources", .obj [("supported", .bool true)]),
             ("tools", .obj [("supported", .bool true)]),
             ("prompts", .obj [("supported", .bool true)]) ]),
         ("serverInfo", .obj [("name", .str "OsduMCPDemo"), ("version", .str "1.0.0")]) ]

/-- The `resources/list` result (app.py lines 104-110). -/
def resourcesListResult : JVal :=
  .obj [ ("resources", .arr
           [ .obj [ ("uri", .str "greeting://{name}"), ("name", .str "Greeting Resource"),
                    ("description", .str "Returns a personalized greeting message. Replace {name} with a name."),
                    ("mimeType", .str "text/plain") ],
             .obj [ ("uri", .str "osdu:wells"), ("name", .str "OSDU Wells Resource"),
                    ("description", .str "Retrieves all OSDU Well data."),
                    ("mimeType", .str "application/json") ],
             .obj [ ("uri", .str "osdu:trajectories"), ("name", .str "OSDU WellboreTrajectories Resource"),
                    ("description", .str "Retrieves all OSDU WellboreTrajectory data."),
                    ("mimeType", .str "application/json") ],
             .obj [ ("uri", .str "osdu:casings"), ("name", .str "OSDU Casings Resource"),
                    ("description", .str "Retrieves all OSDU Casing data."),
                    ("mimeType", .str "application/json") ] ]),
         ("nextCursor", .null) ]

/-- The `tools/list` result (app.py lines 141-146). -/
def toolsListResult : JVal :=
  .obj [ ("tools", .arr
    [ .obj [ ("name", .str "add_numbers"),
             ("description", .str "Adds two integers together."),
             ("inputSchema", .obj
               [ ("properties", .obj
                   [ ("a", .obj [("title", .str "A"), ("type", .str "integer")]),
                     ("b", .obj [("title", .str "B"), ("type", .str "integer")]) ]),
                 ("required", .arr [.str "a", .str "b"]),
                 ("title", .str "add_numbersArguments"), ("type", .str "object") ]),
             ("outputSchema", .obj
               [ ("properties", .obj
                   [ ("result", .obj [("title", .str "Result"), ("type", .str "integer")]) ]),
                 ("required", .arr [.str "result"]),
                 ("title", .str "add_numbersOutput"), ("type", .str "object") ]) ],
      .obj [ ("name", .str "get_casings_for_well"),
             ("description", .str "Retrieves a list of all casings for a given well ID."),
             ("inputSchema", .obj
               [ ("properties", .obj
                   [ ("well_id", .obj [("title", .str "Well Id"), ("type", .str "string")]) ]),
                 ("required", .arr [.str "well_id"]),
                 ("title", .str "get_casings_for_wellArguments"), ("type", .str "object") ]) ],
      .obj [ ("name", .str "list_all_wells"),
             ("description", .str "Lists all wells from the osdu:wells Resource."),
             ("inputSchema", .obj []),
             ("outputSchema", .obj [("type", .str "array")]) ] ]) ]

/-- The `prompts/list` result (app.py lines 175-178). -/
def promptsListResult : JVal :=
  .obj [ ("prompts", .arr
    [ .obj [ ("name", .str "generate_greeting"),
             ("description", .str "Generates a prompt for creating a greeting in a specified style."),
             ("arguments", .arr
               [ .obj [("name", .str "name"), ("required", .bool true)],
                 .obj [("name", .str "style"), ("required", .bool false)] ]) ] ]) ]

/-! ### The handler branches -/

/-- The `resources/read` branch (app.py lines 113-139).  A non-string
`uri` raises AttributeError at `uri.startswith` before any pattern can
match.  On `greeting://...` the name is element 1 of
`uri.split("://")`; the `startswith` guard ensures the split has at
least two elements, so the default of `getD` is never used.  The three
`osdu:` handlers are total, so the except branch returning -32000 in the
source is unreachable. -/
def resourcesRead (s : Store) (params : JVal) (rid : JVal) : Except String Response :=
  match pyDictGet params "uri" (.str "") with
  | .error e => .error e
  | .ok uriV =>
    match uriV with
    | .str uri =>
      if pyStartsWith uri "greeting://" then
        let name := (pySplitSep uri).getD 1 ""
        .ok { out := .ok (.str ("Hello, " ++ name ++ "! Welcome to the MCP demo.")), id := rid }
      else if uri = "osdu:wells" then
        .ok { out := .ok (.arr ((s.wells.map Prod.snd).map wellJ)), id := rid }
      else if uri = "osdu:trajectories" then
        .ok { out := .ok (.arr ((s.trajectories.map Prod.snd).map trajectoryJ)), id := rid }
      else if uri = "osdu:casings" then
        .ok { out := .ok (.arr ((s.casings.map Prod.snd).map casingJ)), id := rid }
      else
        .ok { out := .err (-32602) ("Invalid resource URI: " ++ uri), id := rid }
    | _ => .error "AttributeError: object has no attribute startswith"

/-- The body of the `add_numbers` lambda inside the try block:
`tool_params["a"] + tool_params["b"]`. -/
def addNumbersRun (toolParams : JVal) : Except String JVal :=
  match pyIndex toolParams "a" with
  | .error e => .error e
  | .ok a =>
    match pyIndex toolParams "b" with
    | .error e => .error e
    | .ok b => pyAdd a b

/-- The `tools/call` branch (app.py lines 149-173).  Both `params.get`
calls run before dispatch.  Handler exceptions (KeyError, TypeError, the
ValueError raised on an empty casing list) are caught and wrapped as the
-32000 envelope; a non-string tool name falls through the handler dict
and raises TypeError on the message concatenation, which nothing
catches. -/
def toolsCall (s : Store) (params : JVal) (rid : JVal) : Except String Response :=
  match pyDictGet params "name" (.str "") with
  | .error e => .error e
  | .ok nameV =>
    match pyDictGet params "params" (.obj []) with
    | .error e => .error e
    | .ok toolParams =>
      match nameV with
      | .str t =>
        if t = "add_numbers" then
          match addNumbersRun toolParams with
          | .ok v => .ok { out := .ok v, id := rid }
          | .error e => .ok { out := .err (-32000) ("Tool call error: " ++ e), id := rid }
        else if t = "get_casings_for_well" then
          match pyIndex toolParams "well_id" with
          | .error e => .ok { out := .err (-32000) ("Tool call error: " ++ e), id := rid }
          | .ok wv =>
            let result := (s.casings.map Prod.snd).filter fun c => pyEqStr c.well_id wv
            if result.isEmpty then
              match wv with
              | .str w =>
                .ok { out := .err (-32000) ("Tool call error: No casings found for well " ++ w),
                      id := rid }
              | _ =>
                .ok { out := .err (-32000) ("Tool call error: can only concatenate str"),
                      id := rid }
            else
              .ok { out := .ok (.arr (result.map casingJ)), id := rid }
        else if t = "list_all_wells" then
          .ok { out := .ok (.arr ((s.wells.map Prod.snd).map wellJ)), id := rid }
        else
          .ok { out := .err (-32602) ("Invalid tool name: " ++ t), id := rid }
      | _ => .error "TypeError: can only concatenate str"

/-- The `prompts/get` branch (app.py lines 181-196).  Both `params.get`
calls run before the prompt name is checked.  The style keyword selects
a template, any unrecognized hashable style falling back to friendly,
while an unhashable style (list or dict) raises TypeError inside
`styles.get`; a non-string `name` argument or a non-string unknown
prompt name raises TypeError on string concatenation.  None of these is
caught. -/
def promptsGet (params : JVal) (rid : JVal) : Except String Response :=
  match pyDictGet params "name" (.str "") with
  | .error e => .error e
  | .ok nameV =>
    match pyDictGet params "params" (.obj []) with
    | .error e => .error e
    | .ok promptParams =>
      if pyEqStr "generate_greeting" nameV then
        match pyDictGet promptParams "style" (.str "friendly") with
        | .error e => .error e
        | .ok styleV =>
          match styleV with
          | .arr _ => .error "TypeError: unhashable type"
          | .obj _ => .error "TypeError: unhashable type"
          | _ =>
            let template :=
              match styleV with
              | .str "friendly" => "Write a warm and friendly greeting"
              | .str "formal" => "Write a professional and formal greeting"
              | .str "casual" => "Write a relaxed and casual greeting"
              | _ => "Write a warm and friendly greeting"
            match pyDictGet promptParams "name" (.str "") with
            | .error e => .error e
            | .ok nameArg =>
              match nameArg with
              | .str n =>
                .ok { out := .ok (.str (template ++ " for " ++ n ++ ".")), id := rid }
              | _ => .error "TypeError: can only concatenate str"
      else
        match nameV with
        | .str p => .ok { out := .err (-32602) ("Invalid prompt name: " ++ p), id := rid }
        | _ => .error "TypeError: can only concatenate str"

/-- `OsduMCPServer.handle_request` (app.py lines 91-199).  The store is
threaded explicitly: the source reads the module-level dicts and never
assigns them, so every branch returns the store it was given.  An
`Except.error` result is a Python exception escaping the method
(nothing in the source catches it). -/
def handle_request (s : Store) (req : Request) : Except String Response × Store :=
  let params := req.params
  let rid := (req.id).getD (.int 1)
  if req.method = "initialize" then
    (.ok { out := .ok initializeResult, id := rid }, s)
  else if req.method = "notifications/initialized" then
    (.ok { out := .ok (.obj []), id := rid }, s)
  else if req.method = "resources/list" then
    (.ok { out := .ok resourcesListResult, id := rid }, s)
  else if req.method = "resources/read" then
    (resourcesRead s params rid, s)
  else if req.method = "tools/list" then
    (.ok { out := .ok toolsListResult, id := rid }, s)
  else if req.method = "tools/call" then
    (toolsCall s params rid, s)
  else if req.method = "prompts/list" then
    (.ok { out := .ok promptsListResult, id := rid }, s)
  else if req.method = "prompts/get" then
    (promptsGet params rid, s)
  else
    (.ok { out := .err (-32601) ("Method not found: " ++ req.method), id := rid }, s)

/-! ### The HTTP transport adapter -/

/-- An HTTP response: status code and JSON body. -/
structure HttpResponse where
  status : Nat
  body : JVal

/-- A response envelope rendered as the JSON body of the 200 reply. -/
def responseJson (r : Response) : JVal :=
  .obj ([("jsonrpc", .str r.jsonrpc)] ++
    (match r.out with
     | .ok v => [("result", v)]
     | .err c m => [("error", .obj [("code", .int c), ("message", .str m)])]) ++
    [("id", r.id)])

/-- `mcp_handler` (app.py lines 205-218).  The byte-level input is
abstracted to the outcome of `json.loads`: `Except.error` is a
JSONDecodeError, answered with a plain 400 body that is not an envelope;
a parsed body goes to the dispatcher, and an exception escaping it is
caught by the generic except clause and answered with a plain 500
body. -/
def mcp_handler (s : Store) (body : Except Unit Request) : HttpResponse :=
  match body with
  | .error _ => { status := 400, body := .obj [("error", .str "Invalid JSON")] }
  | .ok req =>
    match handle_request s req with
    | (.ok resp, _) => { status := 200, body := responseJson resp }
    | (.error _, _) => { status := 500, body := .obj [("error", .str "Internal Server Error")] }

/-- Key lookup in a JSON object body, used to state that a body is not
a protocol-level envelope. -/
def jsonHasKey (v : JVal) (k : String) : Bool :=
  match v with
  | .obj d => d.any fun p => p.1 == k
  | _ => false

/-! ## Helper lemmas -/

/-- A character list starts any extension of itself. -/
theorem leadsWithL_self_append (p m : List Char) : leadsWithL p (p ++ m) = true := by
  induction p with
  | nil => rfl
  | cons a t ih => simp [leadsWithL, ih]

/-- Splitting on "://" consumes the literal prefix "greeting://" into a
first component "greeting" and continues on the remainder. -/
theorem splitSep_greeting (m : List Char) :
    splitSep ("greeting://".data ++ m) = "greeting".data :: splitSep m := rfl

/-- The first component of a split on "://" is the part of the list
before its first occurrence of the separator. -/
theorem splitSep_head (l : List Char) : ∃ ls, splitSep l = takeToSep l :: ls := by
  induction l using splitSep.induct with
  | case1 t ih => exact ⟨splitSep t, rfl⟩
  | case2 c rest hne hnil ih =>
    obtain ⟨ls1, hls1⟩ := ih
    rw [hls1] at hnil
    exact absurd hnil (by simp)
  | case3 c rest hne l1 ls1 hcons ih =>
    obtain ⟨ls2, hls2⟩ := ih
    refine ⟨ls2, ?_⟩
    simp only [splitSep, takeToSep, hls2, hne]
  | case4 => exact ⟨[], rfl⟩

/-- Every envelope produced by the resources/read branch carries the id
the branch was given. -/
theorem resourcesRead_id (s : Store) (params rid : JVal) (r : Response)
    (h : resourcesRead s params rid = .ok r) : r.id = rid := by
  simp only [resourcesRead] at h
  repeat' split at h
  all_goals
    first
      | (subst h; rfl)
      | (injection h with h2; subst h2; rfl)
      | (injection h)
      | simp_all

/-- Every envelope produced by the tools/call branch carries the id the
branch was given. -/
theorem toolsCall_id (s : Store) (params rid : JVal) (r : Response)
    (h : toolsCall s params rid = .ok r) : r.id = rid := by
  simp only [toolsCall, addNumbersRun] at h
  repeat' split at h
  all_goals
    first
      | (subst h; rfl)
      | (injection h with h2; subst h2; rfl)
      | (injection h)
      | simp_all

/-- Every envelope produced by the prompts/get branch carries the id the
branch was given. -/
theorem promptsGet_id (params rid : JVal) (r : Response)
    (h : promptsGet params rid = .ok r) : r.id = rid := by
  simp only [promptsGet] at h
  repeat' split at h
  all_goals
    first
      | (subst h; rfl)
      | (injection h with h2; subst h2; rfl)
      | (injection h)
      | simp_all

/-! ## Claims -/

/-- Claim C1: for every store and every well id w, calling the tool
get_casings_for_well with well_id w returns exactly the casing records
whose well_id equals w, in store order, and when that list is empty the
call instead returns the -32000 tool-call-error envelope raised from the
ValueError, never an empty list. -/
theorem tools_get_casings_for_well_spec (s : Store) (w : String) (i : JVal) :
    (((s.casings.map Prod.snd).filter (fun c => c.well_id == w)) ≠ [] →
      (handle_request s
        { method := "tools/call",
          params := .obj [("name", .str "get_casings_for_well"),
                          ("params", .obj [("well_id", .str w)])],
          id := some i }).1
        = .ok { out := .ok (.arr (((s.casings.map Prod.snd).filter
                    (fun c => c.well_id == w)).map casingJ)),
                id := i })
    ∧ (((s.casings.map Prod.snd).filter (fun c => c.well_id == w)) = [] →
      (handle_request s
        { method := "tools/call",
          params := .obj [("name", .str "get_casings_for_well"),
                          ("params", .obj [("well_id", .str w)])],
          id := some i }).1
        = .ok { out := .err (-32000) ("Tool call error: No casings found for well " ++ w),
                id := i }) := by
  have hfun : (fun c : Casing => pyEqStr c.well_id (.str w)) = fun c => c.well_id == w := by
    funext c; rfl
  have hred : (handle_request s
        { method := "tools/call",
          params := .obj [("name", .str "get_casings_for_well"),
                          ("params", .obj [("well_id", .str w)])],
          id := some i }).1
      = (if ((s.casings.map Prod.snd).filter (fun c => c.well_id == w)).isEmpty then
           .ok { out := .err (-32000) ("Tool call error: No casings found for well " ++ w),
                 id := i }
         else
           .ok { out := .ok (.arr (((s.casings.map Prod.snd).filter
                     (fun c => c.well_id == w)).map casingJ)),
                 id := i }) := by
    simp [handle_request, toolsCall, pyDictGet, pyIndex, hfun]
    rw [hfun]
  constructor
  · intro h
    rw [hred, if_neg]
    simp [List.isEmpty_iff, h]
  · intro h
    rw [hred, if_pos]
    simp [List.isEmpty_iff, h]

/-- Witness for C1 on the seeded data: well1 yields exactly the rows
casing1 and casing1b, and well3 (no casings) yields the -32000 error
envelope. -/
theorem tools_get_casings_for_well_spec_witness :
    (handle_request init_store
      { method := "tools/call",
        params := .obj [("name", .str "get_casings_for_well"),
                        ("params", .obj [("well_id", .str "well1")])],
        id := some (.int 7) }).1
      = .ok { out := .ok (.arr
                [ casingJ { id := "casing1", well_id := "well1",
                            top_depth := 0, bottom_depth := 500, diameter := 9.625 },
                  casingJ { id := "casing1b", well_id := "well1",
                            top_depth := 500, bottom_depth := 1000, diameter := 7 } ]),
              id := .int 7 }
    ∧ (handle_request init_store
       { method := "tools/call",
         params := .obj [("name", .str "get_casings_for_well"),
                         ("params", .obj [("well_id", .str "well3")])],
         id := some (.int 7) }).1
      = .ok { out := .err (-32000) "Tool call error: No casings found for well well3",
              id := .int 7 } :=
  ⟨(tools_get_casings_for_well_spec init_store "well1" (.int 7)).1 (by decide),
   (tools_get_casings_for_well_spec init_store "well3" (.int 7)).2 (by decide)⟩

/-- Claim C2: seeding the sample data, saving it to the snapshot and
reloading the snapshot reproduces the in-memory maps exactly (the seed
keys each record under its own id field, so rebuilding the dicts from
the saved record arrays is the identity); equality of the maps in
particular gives the order-insensitive equality of record sets stated
by the spec. -/
theorem seed_save_load_roundtrip :
    load_from_snapshot (save_data init_store) = init_store := by rfl

/-- Claim C3: an unrecognized method name yields the -32601 envelope,
and an unknown tool name, an unmatched resource uri, or an unknown
prompt name each yield the -32602 envelope. -/
theorem unknown_names_error_codes (s : Store) (i : JVal) (m t u p : String)
    (hm : m ∉ ["initialize", "notifications/initialized", "resources/list", "resources/read",
               "tools/list", "tools/call", "prompts/list", "prompts/get"])
    (ht : t ∉ ["add_numbers", "get_casings_for_well", "list_all_wells"])
    (hu1 : pyStartsWith u "greeting://" = false)
    (hu2 : u ∉ ["osdu:wells", "osdu:trajectories", "osdu:casings"])
    (hp : p ≠ "generate_greeting") :
    (handle_request s { method := m, params := .obj [], id := some i }).1
      = .ok { out := .err (-32601) ("Method not found: " ++ m), id := i }
    ∧ (handle_request s
        { method := "tools/call", params := .obj [("name", .str t)], id := some i }).1
      = .ok { out := .err (-32602) ("Invalid tool name: " ++ t), id := i }
    ∧ (handle_request s
        { method := "resources/read", params := .obj [("uri", .str u)], id := some i }).1
      = .ok { out := .err (-32602) ("Invalid resource URI: " ++ u), id := i }
    ∧ (handle_request s
        { method := "prompts/get", params := .obj [("name", .str p)], id := some i }).1
      = .ok { out := .err (-32602) ("Invalid prompt name: " ++ p), id := i } := by
  simp only [List.mem_cons, List.not_mem_nil, or_false, not_or] at hm ht hu2
  obtain ⟨hm1, hm2, hm3, hm4, hm5, hm6, hm7, hm8⟩ := hm
  obtain ⟨ht1, ht2, ht3⟩ := ht
  obtain ⟨hu21, hu22, hu23⟩ := hu2
  refine ⟨?_, ?_, ?_, ?_⟩
  · simp [handle_request, hm1, hm2, hm3, hm4, hm5, hm6, hm7, hm8]
  · simp [handle_request, toolsCall, pyDictGet, ht1, ht2, ht3]
  · simp [handle_request, resourcesRead, pyDictGet, hu1, hu21, hu22, hu23]
  · simp [handle_request, promptsGet, pyDictGet, pyEqStr, hp, Ne.symm hp]

/-- Witness for C3 at the concrete unknowns method "foo/bar", tool
"frobnicate", uri "ftp://x" and prompt "other". -/
theorem unknown_names_error_codes_witness :
    (handle_request init_store
      { method := "foo/bar", params := .obj [], id := some (.int 2) }).1
      = .ok { out := .err (-32601) "Method not found: foo/bar", id := .int 2 }
    ∧ (handle_request init_store
        { method := "tools/call", params := .obj [("name", .str "frobnicate")],
          id := some (.int 2) }).1
      = .ok { out := .err (-32602) "Invalid tool name: frobnicate", id := .int 2 }
    ∧ (handle_request init_store
        { method := "resources/read", params := .obj [("uri", .str "ftp://x")],
          id := some (.int 2) }).1
      = .ok { out := .err (-32602) "Invalid resource URI: ftp://x", id := .int 2 }
    ∧ (handle_request init_store
        { method := "prompts/get", params := .obj [("name", .str "other")],
          id := some (.int 2) }).1
      = .ok { out := .err (-32602) "Invalid prompt name: other", id := .int 2 } :=
  unknown_names_error_codes init_store (.int 2) "foo/bar" "frobnicate" "ftp://x" "other"
    (by decide) (by decide) (by decide) (by decide) (by decide)

/-- Claim C4: for all integers a and b, the add_numbers tool returns the
exact integer sum a + b (so in particular 2 + 3 gives 5 and -1 + 1
gives 0). -/
theorem tools_add_numbers_spec (s : Store) (a b : Int) (i : JVal) :
    (handle_request s
      { method := "tools/call",
        params := .obj [("name", .str "add_numbers"),
                        ("params", .obj [("a", .int a), ("b", .int b)])],
        id := some i }).1
    = .ok { out := .ok (.int (a + b)), id := i } := by rfl

/-- Claim C5: prompts/get on generate_greeting with a string name n and
string style s renders the template for s when s is friendly, formal or
casual, and the friendly template for every other style string, always
with n substituted after "for". -/
theorem prompts_generate_greeting_spec (st : Store) (n sty : String) (i : JVal) :
    (handle_request st
      { method := "prompts/get",
        params := .obj [("name", .str "generate_greeting"),
                        ("params", .obj [("name", .str n), ("style", .str sty)])],
        id := some i }).1
    = .ok { out := .ok (.str
        ((if sty = "friendly" then "Write a warm and friendly greeting"
          else if sty = "formal" then "Write a professional and formal greeting"
          else if sty = "casual" then "Write a relaxed and casual greeting"
          else "Write a warm and friendly greeting") ++ " for " ++ n ++ ".")),
            id := i } := by
  by_cases h1 : sty = "friendly"
  · subst h1; rfl
  by_cases h2 : sty = "formal"
  · subst h2; rfl
  by_cases h3 : sty = "casual"
  · subst h3; rfl
  simp [handle_request, promptsGet, pyDictGet, pyEqStr, h1, h2, h3]

/-- Counterexample to claim C6 as stated: for the uri
greeting://a://b, the name taken is "a" (element 1 of the split on
"://"), not the verbatim remainder "a://b", so the greeting differs
from the one the claim requires. -/
theorem greeting_uri_verbatim_counterexample :
    (handle_request init_store
      { method := "resources/read",
        params := .obj [("uri", .str "greeting://a://b")],
        id := some (.int 7) }).1
    = .ok { out := .ok (.str "Hello, a! Welcome to the MCP demo."), id := .int 7 }
    ∧ ("Hello, a! Welcome to the MCP demo." : String)
      ≠ "Hello, a://b! Welcome to the MCP demo." :=
  ⟨rfl, by decide⟩

/-- Claim C6 as amended: for every name remainder n, the segment
substituted into the greeting is the part of n before its first further
"://" occurrence (element 1 of splitting the whole uri on "://"); in
particular, when n contains no further "://" (its split on "://" is
itself alone) it is taken verbatim. -/
theorem greeting_uri_verbatim_amended (st : Store) (n : String) (i : JVal) :
    ((handle_request st
      { method := "resources/read",
        params := .obj [("uri", .str ("greeting://" ++ n))],
        id := some i }).1
    = .ok { out := .ok (.str ("Hello, " ++ upToSep n ++ "! Welcome to the MCP demo.")),
            id := i })
    ∧ (splitSep n.data = [n.data] → upToSep n = n) := by
  obtain ⟨ls, hls⟩ := splitSep_head n.data
  constructor
  · have hstarts : pyStartsWith ("greeting://" ++ n) "greeting://" = true := by
      unfold pyStartsWith
      rw [String.data_append]
      exact leadsWithL_self_append _ _
    have hsplit : pySplitSep ("greeting://" ++ n)
        = "greeting" :: upToSep n :: ls.map (fun l => ⟨l⟩) := by
      unfold pySplitSep
      rw [String.data_append, splitSep_greeting, hls]
      rfl
    simp [handle_request, resourcesRead, pyDictGet, hstarts, hsplit]
  · intro hn
    rw [hn] at hls
    injection hls with h1 h2
    unfold upToSep
    rw [← h1]

/-- Witness for the amended C6: at n = "a://b" the substituted segment
evaluates to "a", and at n = "Bob" (no further "://") the name is taken
verbatim, the no-separator hypothesis discharged concretely. -/
theorem greeting_uri_verbatim_amended_witness :
    (handle_request init_store
      { method := "resources/read",
        params := .obj [("uri", .str ("greeting://" ++ "a://b"))],
        id := some (.int 9) }).1
      = .ok { out := .ok (.str "Hello, a! Welcome to the MCP demo."), id := .int 9 }
    ∧ upToSep "Bob" = "Bob" :=
  ⟨(greeting_uri_verbatim_amended init_store "a://b" (.int 9)).1,
   (greeting_uri_verbatim_amended init_store "Bob" (.int 9)).2 (by decide)⟩

/-- Claim C7: whenever the dispatcher returns a response envelope (for
a recognized or unrecognized method alike), its id field is the id of
the request, defaulting to the int 1 when the request carries none. -/
theorem response_id_echoes_request_id (s : Store) (req : Request) (r : Response)
    (h : (handle_request s req).1 = .ok r) : r.id = (req.id).getD (.int 1) := by
  simp only [handle_request] at h
  repeat' split at h
  all_goals
    first
      | (exact resourcesRead_id _ _ _ _ h)
      | (exact toolsCall_id _ _ _ _ h)
      | (exact promptsGet_id _ _ _ h)
      | (subst h; rfl)
      | (injection h with h2; subst h2; rfl)
      | simp_all

/-- Witness for C7: a tools/list request with string id "abc" is
answered with id "abc". -/
theorem response_id_echoes_request_id_witness :
    (Response.id { out := .ok toolsListResult, id := .str "abc" })
      = (some (JVal.str "abc")).getD (.int 1) :=
  response_id_echoes_request_id init_store
    { method := "tools/list", params := .obj [], id := some (.str "abc") }
    { out := .ok toolsListResult, id := .str "abc" } rfl

/-- Claim C8: a body that fails JSON decoding is answered with a plain
HTTP 400 whose body carries none of the envelope keys, and a request on
which the dispatcher raises is answered with a plain HTTP 500. -/
theorem transport_status_mapping (s : Store) :
    (mcp_handler s (.error ())).status = 400
    ∧ jsonHasKey (mcp_handler s (.error ())).body "jsonrpc" = false
    ∧ jsonHasKey (mcp_handler s (.error ())).body "id" = false
    ∧ jsonHasKey (mcp_handler s (.error ())).body "result" = false
    ∧ ∀ (req : Request) (e : String), (handle_request s req).1 = .error e →
        mcp_handler s (.ok req)
          = { status := 500, body := .obj [("error", .str "Internal Server Error")] } := by
  refine ⟨rfl, rfl, rfl, rfl, ?_⟩
  intro req e h
  rcases hh : handle_request s req with ⟨out, st⟩
  rw [hh] at h
  simp only at h
  subst h
  simp [mcp_handler, hh]

/-- Witness for C8: a prompts/get request whose params value is the
string "oops" makes the dispatcher raise (AttributeError on .get), and
the transport answers 500. -/
theorem transport_status_mapping_witness :
    mcp_handler init_store
      (.ok { method := "prompts/get",
             params := .str "oops",
             id := none })
      = { status := 500, body := .obj [("error", .str "Internal Server Error")] } :=
  (transport_status_mapping init_store).2.2.2.2
    { method := "prompts/get", params := .str "oops", id := none }
    "AttributeError: object has no attribute get" rfl

/-- Claim C9: the dispatcher never mutates the stores: for every
request the store component it returns is the store it was given, on
success, error-envelope and exception paths alike. -/
theorem handle_request_preserves_stores (s : Store) (req : Request) :
    (handle_request s req).2 = s := by
  unfold handle_request
  repeat first | rfl | split

/-- Claim C10: prompts/get on generate_greeting with the name argument
omitted does not fail: it returns a success envelope whose result is
the selected style template rendered with the empty string as the
name. -/
theorem prompts_get_missing_name_defaults (st : Store) (sty : String) (i : JVal) :
    (handle_request st
      { method := "prompts/get",
        params := .obj [("name", .str "generate_greeting"),
                        ("params", .obj [("style", .str sty)])],
        id := some i }).1
    = .ok { out := .ok (.str
        (if sty = "friendly" then "Write a warm and friendly greeting for ."
         else if sty = "formal" then "Write a professional and formal greeting for ."
         else if sty = "casual" then "Write a relaxed and casual greeting for ."
         else "Write a warm and friendly greeting for .")), id := i } := by
  by_cases h1 : sty = "friendly"
  · subst h1; rfl
  by_cases h2 : sty = "formal"
  · subst h2; rfl
  by_cases h3 : sty = "casual"
  · subst h3; rfl
  simp [handle_request, promptsGet, pyDictGet, pyEqStr, h1, h2, h3]

end OsduMCP
